import Mathlib

/-!
Shallow embedding of the txgbe VF control-plane driver
(drivers/net/txgbe/txgbe_ethdev_vf.c) and proofs about its
address-table management, mailbox API negotiation, interrupt masking,
capability reporting and device initialization.

MAC addresses are modelled as lists of byte values; mailbox and
register interactions are modelled as explicit request/action traces;
results of external calls (mailbox round-trips, the base-driver
reset/start primitives, allocation) are supplied as oracle inputs.
-/

/-- A MAC-layer address: the six byte values of struct rte_ether_addr. -/
abbrev EtherAddr := List Nat

/-- rte_is_zero_ether_addr: all bytes of the address are zero. -/
def rte_is_zero_ether_addr (a : EtherAddr) : Bool :=
  a.all (fun b => b == 0)

/-- RTE_ETHER_LOCAL_ADMIN_ADDR: the locally-administered address bit. -/
def RTE_ETHER_LOCAL_ADMIN_ADDR : Nat := 0x02

/-- The four mailbox API versions negotiated with the PF
(txgbe_mbox_api_10 .. txgbe_mbox_api_13). -/
inductive ApiVer where
  | api10
  | api11
  | api12
  | api13
  deriving DecidableEq, Repr

/-- Mailbox requests the VF driver issues to the PF.
clearUC is txgbevf_set_uc_addr_vf(hw, 0, NULL); addUC is
txgbevf_set_uc_addr_vf(hw, 2, bytes); setRar is the base-driver
txgbe_set_rar_vf / hw->mac.set_rar primitive carrying the slot index
and the address. -/
inductive MbxReq where
  | clearUC
  | addUC (addr : EtherAddr)
  | negotiate (v : ApiVer)
  | getQueues
  | setRar (slot : Nat) (addr : EtherAddr)
  deriving DecidableEq, Repr

/-- Hardware registers touched by the interrupt mask controller:
the VF interrupt mask set (TXGBE_VFIMS) and mask clear (TXGBE_VFIMC)
registers. -/
inductive Reg where
  | VFIMS
  | VFIMC
  deriving DecidableEq, Repr

/-- Modelled from the spec: the full interrupt mask bit-pattern
TXGBE_VFIMS_MASK; its numeric register value lives in the base-driver
headers outside src, only its identity matters here. -/
def TXGBE_VFIMS_MASK : Nat := 3

/-- Modelled from the spec: the full mask bit-pattern TXGBE_VFIMC_MASK
written to the mask-clear register; numeric value in base-driver
headers outside src. -/
def TXGBE_VFIMC_MASK : Nat := 3

/-- Hardware-affecting actions: register writes, flushes, the
base-driver reset/start primitives and mailbox requests. -/
inductive HwAct where
  | wr32 (r : Reg) (v : Nat)
  | flush
  | resetHw
  | startHw
  | mbx (r : MbxReq)
  deriving DecidableEq, Repr

/-- The candidate-version array sup_ver of txgbevf_negotiate_api:
highest supported first. -/
def sup_ver : List ApiVer := [ApiVer.api13, ApiVer.api12, ApiVer.api11, ApiVer.api10]

/-- Modelled from the spec: txgbevf_negotiate_api_version (base driver,
not under src) issues one mailbox negotiation round-trip for the
candidate; on success it records the candidate as the active API
version and returns 0, on failure it leaves the negotiated state
unchanged and returns a nonzero code. The oracle ok gives the PF
outcome per candidate. -/
def txgbevf_negotiate_api_version (ok : ApiVer → Bool) (v : ApiVer) (cur : ApiVer) :
    ApiVer × Int :=
  if ok v then (v, 0) else (cur, -100)

/-- The candidate loop body of txgbevf_negotiate_api: walk the
remaining candidates, breaking at the first that negotiates
successfully. Returns the final negotiated version and the list of
candidates actually attempted, in order. -/
def negotiateLoop (ok : ApiVer → Bool) : List ApiVer → ApiVer → ApiVer × List ApiVer
  | [], cur => (cur, [])
  | v :: rest, cur =>
    let r := txgbevf_negotiate_api_version ok v cur
    if r.snd = 0 then (r.fst, [v])
    else
      let w := negotiateLoop ok rest r.fst
      (w.fst, v :: w.snd)

/-- txgbevf_negotiate_api: try sup_ver from highest to lowest starting
from the post-reset baseline version cur; stop at the first success.
The C function returns void: the model returns the final negotiated
version and the trace of attempted candidates. -/
def txgbevf_negotiate_api (ok : ApiVer → Bool) (cur : ApiVer) : ApiVer × List ApiVer :=
  negotiateLoop ok sup_ver cur

/-- txgbevf_add_mac_addr: reject (result -1, no mailbox traffic) when
the address equals hw->mac.perm_addr (memcmp == 0); otherwise forward
one addUC mailbox request and return the mailbox result mbx_err
unchanged (failures are only logged). Returns the result code and the
mailbox request trace. -/
def txgbevf_add_mac_addr (perm : EtherAddr) (mbx_err : Int) (mac : EtherAddr) :
    Int × List MbxReq :=
  if perm = mac then (-1, [])
  else (mbx_err, [MbxReq.addUC mac])

/-- The replay loop of txgbevf_remove_mac_addr: walk the local table
starting at slot position i; skip the slot at the removal index, empty
slots, and slots equal to the permanent address; re-add every other
slot via an addUC mailbox request. mbxRes gives the per-request
mailbox results, which the code only logs. -/
def removeReplay (mbxRes : Nat → Int) (perm : EtherAddr) (index : Nat) :
    Nat → List EtherAddr → List MbxReq
  | _, [] => []
  | i, a :: rest =>
    if i = index then removeReplay mbxRes perm index (i + 1) rest
    else if rte_is_zero_ether_addr a then removeReplay mbxRes perm index (i + 1) rest
    else if a = perm then removeReplay mbxRes perm index (i + 1) rest
    else MbxReq.addUC a :: removeReplay mbxRes perm index (i + 1) rest

/-- txgbevf_remove_mac_addr: issue one clear-all-unicast request whose
result is discarded, then replay the whole local table skipping the
removed index, empty slots and the permanent address. Returns the
mailbox request trace. -/
def txgbevf_remove_mac_addr (mbxRes : Nat → Int) (perm : EtherAddr)
    (table : List EtherAddr) (index : Nat) : List MbxReq :=
  MbxReq.clearUC :: removeReplay mbxRes perm index 0 table

/-- Spec-side predicate: a positioned slot survives the removal replay
if its position is not the removed index, it is non-empty, and its
value differs from the permanent address. -/
def replay_keep (perm : EtherAddr) (index : Nat) (p : Nat × EtherAddr) : Bool :=
  !(p.fst == index) && !(rte_is_zero_ether_addr p.snd) && !(p.snd == perm)

/-- Spec-side description of the replay: the addUC requests for
exactly the surviving slots of the table, taken in increasing table
order. -/
def replaySpec (perm : EtherAddr) (index : Nat) (table : List EtherAddr) : List MbxReq :=
  (table.enum.filter (replay_keep perm index)).map (fun p => MbxReq.addUC p.snd)

theorem removeReplay_eq_enumFrom (mbxRes : Nat → Int) (perm : EtherAddr) (index : Nat)
    (table : List EtherAddr) : ∀ i : Nat,
    removeReplay mbxRes perm index i table
      = ((table.enumFrom i).filter (replay_keep perm index)).map
          (fun p => MbxReq.addUC p.snd) := by
  induction table with
  | nil => intro i; simp [removeReplay, List.enumFrom]
  | cons a rest ih =>
    intro i
    simp only [removeReplay, List.enumFrom, List.filter_cons]
    by_cases hi : i = index
    · simp [replay_keep, hi, ih]
    · by_cases hz : rte_is_zero_ether_addr a
      · simp [replay_keep, hi, hz, ih]
      · by_cases hp : a = perm
        · simp [replay_keep, hi, hz, hp, ih]
        · simp [replay_keep, hi, hz, hp, ih]

theorem addUC_perm_not_mem_replaySpec (perm : EtherAddr) (index : Nat)
    (table : List EtherAddr) : MbxReq.addUC perm ∉ replaySpec perm index table := by
  intro hmem
  simp only [replaySpec, List.mem_map, List.mem_filter] at hmem
  obtain ⟨p, ⟨_, hkeep⟩, heq⟩ := hmem
  have hsnd : p.snd = perm := by
    injection heq
  simp [replay_keep, hsnd] at hkeep

/-- Claim C1 — txgbevf_remove_mac_addr(i), for every table state,
removal index and sequence of mailbox outcomes, first issues a single
clear-all-unicast request (result ignored), then re-adds exactly the
non-empty slots whose position is not i and whose value differs from
the permanent address, each exactly once in increasing table order; the
permanent address is never re-added. -/
theorem claim_C1_remove_replay (mbxRes : Nat → Int) (perm : EtherAddr)
    (table : List EtherAddr) (index : Nat) :
    txgbevf_remove_mac_addr mbxRes perm table index
      = MbxReq.clearUC :: replaySpec perm index table
    ∧ MbxReq.addUC perm ∉ txgbevf_remove_mac_addr mbxRes perm table index := by
  have htr : txgbevf_remove_mac_addr mbxRes perm table index
      = MbxReq.clearUC :: replaySpec perm index table := by
    simp only [txgbevf_remove_mac_addr, replaySpec]
    rw [removeReplay_eq_enumFrom]
    rfl
  refine ⟨htr, ?_⟩
  rw [htr]
  intro hmem
  rcases List.mem_cons.mp hmem with h | h
  · exact MbxReq.noConfusion h
  · exact addUC_perm_not_mem_replaySpec perm index table h

/-- Claim C2 — txgbevf_negotiate_api, starting from the post-reset
baseline api10, attempts candidates in the fixed order v13, v12, v11,
v10, stopping at the first mailbox success; the attempt trace is the
failing candidates followed by the first successful one (each candidate
at most once), the final negotiated version is the first successful
candidate, and if every attempt fails the baseline api10 remains in
effect; the function surfaces no error. -/
theorem claim_C2_negotiate (ok : ApiVer → Bool) :
    (txgbevf_negotiate_api ok ApiVer.api10).snd
      = sup_ver.takeWhile (fun v => !ok v)
        ++ (match sup_ver.find? ok with
            | some v => [v]
            | none => [])
    ∧ (txgbevf_negotiate_api ok ApiVer.api10).fst
      = (sup_ver.find? ok).getD ApiVer.api10
    ∧ (txgbevf_negotiate_api ok ApiVer.api10).snd.Nodup := by
  cases h13 : ok ApiVer.api13 <;> cases h12 : ok ApiVer.api12 <;>
    cases h11 : ok ApiVer.api11 <;> cases h10 : ok ApiVer.api10 <;>
    simp [txgbevf_negotiate_api, negotiateLoop, txgbevf_negotiate_api_version,
      sup_ver, h13, h12, h11, h10, List.find?, List.takeWhile]

/-- Claim C3 — txgbevf_add_mac_addr returns -1 and issues no mailbox
request when the address equals the permanent address; otherwise it
issues exactly one addUC request and passes the mailbox result code
through unchanged (0 on success, the underlying error otherwise), with
no duplicate check for non-permanent addresses. -/
theorem claim_C3_add (perm mac : EtherAddr) (mbx_err : Int) :
    (mac = perm → txgbevf_add_mac_addr perm mbx_err mac = (-1, []))
    ∧ (mac ≠ perm →
        txgbevf_add_mac_addr perm mbx_err mac = (mbx_err, [MbxReq.addUC mac])) := by
  constructor
  · intro h
    simp [txgbevf_add_mac_addr, h]
  · intro h
    have h2 : ¬ perm = mac := fun hpm => h hpm.symm
    simp [txgbevf_add_mac_addr, h2]

theorem claim_C3_add_witness :
    txgbevf_add_mac_addr [1, 2, 3, 4, 5, 6] 0 [1, 2, 3, 4, 5, 6] = (-1, [])
    ∧ txgbevf_add_mac_addr [1, 2, 3, 4, 5, 6] (-7) [9, 9, 9, 9, 9, 9]
        = (-7, [MbxReq.addUC [9, 9, 9, 9, 9, 9]]) :=
  ⟨(claim_C3_add [1, 2, 3, 4, 5, 6] [1, 2, 3, 4, 5, 6] 0).1 rfl,
   (claim_C3_add [1, 2, 3, 4, 5, 6] [9, 9, 9, 9, 9, 9] (-7)).2 (by decide)⟩

/-- The interrupt controller state: the locally mirrored mask
(intr->mask_misc) plus the trace of register actions issued so far. -/
structure IntrState where
  mask_misc : Nat
  trace : List HwAct
  deriving DecidableEq, Repr

/-- txgbevf_intr_disable: write the full mask pattern to the mask-set
register TXGBE_VFIMS, flush, then mirror the mask value locally. -/
def txgbevf_intr_disable (s : IntrState) : IntrState :=
  { mask_misc := TXGBE_VFIMS_MASK,
    trace := s.trace ++ [HwAct.wr32 Reg.VFIMS TXGBE_VFIMS_MASK, HwAct.flush] }

/-- txgbevf_intr_enable: write the full mask pattern to the mask-clear
register TXGBE_VFIMC, flush, then mirror zero locally. -/
def txgbevf_intr_enable (s : IntrState) : IntrState :=
  { mask_misc := 0,
    trace := s.trace ++ [HwAct.wr32 Reg.VFIMC TXGBE_VFIMC_MASK, HwAct.flush] }

/-- An interrupt mask controller operation. -/
inductive IntrOp where
  | disable
  | enable
  deriving DecidableEq, Repr

/-- Run one interrupt mask controller operation. -/
def intr_step : IntrOp → IntrState → IntrState
  | IntrOp.disable, s => txgbevf_intr_disable s
  | IntrOp.enable, s => txgbevf_intr_enable s

/-- Run a sequence of interrupt mask controller operations in order. -/
def runIntrOps : List IntrOp → IntrState → IntrState
  | [], s => s
  | op :: ops, s => runIntrOps ops (intr_step op s)

/-- The mirror value implied by one operation: disable implies the full
mask, enable implies zero. -/
def intr_op_mask : IntrOp → Nat
  | IntrOp.disable => TXGBE_VFIMS_MASK
  | IntrOp.enable => 0

/-- The register actions one operation issues: the write to the
mask-set or mask-clear register, then the flush. -/
def intr_op_writes : IntrOp → List HwAct
  | IntrOp.disable => [HwAct.wr32 Reg.VFIMS TXGBE_VFIMS_MASK, HwAct.flush]
  | IntrOp.enable => [HwAct.wr32 Reg.VFIMC TXGBE_VFIMC_MASK, HwAct.flush]

/-- Claim C9 — for every sequence of disable/enable operations, the
locally mirrored mask after the sequence equals the value implied by
the last operation issued (the full mask after a disable, zero after an
enable, the initial mirror when no operation ran), and each operation
appends exactly its mask-register write followed by a flush to the
hardware action trace before the mirror update takes effect. -/
theorem claim_C9_intr_mirror (ops : List IntrOp) (s : IntrState) :
    (runIntrOps ops s).mask_misc
      = ((ops.map intr_op_mask).getLast?).getD s.mask_misc
    ∧ (runIntrOps ops s).trace = s.trace ++ (ops.map intr_op_writes).flatten := by
  induction ops generalizing s with
  | nil => simp [runIntrOps]
  | cons op ops ih =>
    have hmask : (intr_step op s).mask_misc = intr_op_mask op := by
      cases op <;> rfl
    have htrace : (intr_step op s).trace = s.trace ++ intr_op_writes op := by
      cases op <;> rfl
    refine ⟨?_, ?_⟩
    · have h1 := (ih (intr_step op s)).1
      rw [runIntrOps, h1, hmask]
      cases ops with
      | nil => simp
      | cons op2 ops2 =>
        simp only [List.map_cons, List.getLast?_cons_cons]
        cases hgl : (intr_op_mask op2 :: List.map intr_op_mask ops2).getLast? with
        | none =>
          have hne : intr_op_mask op2 :: List.map intr_op_mask ops2 ≠ [] := by
            simp
          exact absurd (List.getLast?_eq_none_iff.mp hgl) hne
        | some x => simp [hgl]
    · have h2 := (ih (intr_step op s)).2
      rw [runIntrOps, h2, htrace]
      simp [List.append_assoc]

/-- TXGBE_FRAME_SIZE_MAX: maximum frame size constant from the base
driver headers (outside src). -/
def TXGBE_FRAME_SIZE_MAX : Nat := 9728

/-- TXGBE_VMDQ_NUM_UC_MAC: hashed unicast address capacity constant
from the base driver headers (outside src). -/
def TXGBE_VMDQ_NUM_UC_MAC : Nat := 4096

/-- ETH_64_POOLS: 64 VMDq pools (ethdev constant outside src). -/
def ETH_64_POOLS : Nat := 64

/-- TXGBE_HKEY_MAX_INDEX: RSS hash key word count (outside src). -/
def TXGBE_HKEY_MAX_INDEX : Nat := 10

/-- ETH_RSS_RETA_SIZE_128: redirection table size (outside src). -/
def ETH_RSS_RETA_SIZE_128 : Nat := 128

/-- Inputs of txgbevf_dev_info_get that come from the hardware handle,
the PCI device, and the external offload-capability getters of the
receive/transmit module (txgbe_get_rx_queue_offloads,
txgbe_get_rx_port_offloads, txgbe_get_tx_queue_offloads,
txgbe_get_tx_port_offloads, all outside src and treated as free
bit-mask inputs). -/
structure DevCapsInputs where
  max_rx_queues : Nat
  max_tx_queues : Nat
  num_rar_entries : Nat
  max_vfs : Nat
  rx_queue_offloads : Nat
  rx_port_offloads : Nat
  tx_queue_offloads : Nat
  tx_port_offloads : Nat
  deriving DecidableEq, Repr

/-- The capability descriptor fields filled in by
txgbevf_dev_info_get (struct rte_eth_dev_info; the fixed ring-threshold
and descriptor-limit records are omitted constants). -/
structure DevInfo where
  max_rx_queues : Nat
  max_tx_queues : Nat
  min_rx_bufsize : Nat
  max_rx_pktlen : Nat
  max_mac_addrs : Nat
  max_hash_mac_addrs : Nat
  max_vfs : Nat
  max_vmdq_pools : Nat
  rx_queue_offload_capa : Nat
  rx_offload_capa : Nat
  tx_queue_offload_capa : Nat
  tx_offload_capa : Nat
  hash_key_size : Nat
  reta_size : Nat
  deriving DecidableEq, Repr

/-- txgbevf_dev_info_get: fill the capability descriptor from hardware
limits, constants and the offload getters; the receive port capability
is the bitwise-or of the port getter and the queue getter, while the
transmit port capability is assigned the transmit port getter alone.
Pure: returns the descriptor and the result code 0. -/
def txgbevf_dev_info_get (inp : DevCapsInputs) : DevInfo × Int :=
  ({ max_rx_queues := inp.max_rx_queues
     max_tx_queues := inp.max_tx_queues
     min_rx_bufsize := 1024
     max_rx_pktlen := TXGBE_FRAME_SIZE_MAX
     max_mac_addrs := inp.num_rar_entries
     max_hash_mac_addrs := TXGBE_VMDQ_NUM_UC_MAC
     max_vfs := inp.max_vfs
     max_vmdq_pools := ETH_64_POOLS
     rx_queue_offload_capa := inp.rx_queue_offloads
     rx_offload_capa := inp.rx_port_offloads ||| inp.rx_queue_offloads
     tx_queue_offload_capa := inp.tx_queue_offloads
     tx_offload_capa := inp.tx_port_offloads
     hash_key_size := TXGBE_HKEY_MAX_INDEX * 4
     reta_size := ETH_RSS_RETA_SIZE_128 }, 0)

/-- Claim C8 counterexample — with every input zero except a transmit
queue-level capability bit, the reported transmit offload capability is
not the union of the transmit port-level and queue-level bits, so the
union rule does not hold in the transmit direction. -/
theorem claim_C8_counterexample :
    ¬ ((txgbevf_dev_info_get
          { max_rx_queues := 0, max_tx_queues := 0, num_rar_entries := 0,
            max_vfs := 0, rx_queue_offloads := 0, rx_port_offloads := 0,
            tx_queue_offloads := 1, tx_port_offloads := 0 }).fst.tx_offload_capa
        = (0 : Nat) ||| 1) := by
  decide

/-- Claim C8 (amended) — txgbevf_dev_info_get reports the receive port
offload capability as the union of the receive port-level and
queue-level bits, but reports the transmit port offload capability as
exactly the transmit port-level bits (no union with the queue-level
bits); the queue-level fields are passed through unchanged, the call is
pure and always returns 0. -/
theorem claim_C8_dev_info (inp : DevCapsInputs) :
    (txgbevf_dev_info_get inp).snd = 0
    ∧ (txgbevf_dev_info_get inp).fst.rx_offload_capa
        = inp.rx_port_offloads ||| inp.rx_queue_offloads
    ∧ (txgbevf_dev_info_get inp).fst.rx_queue_offload_capa = inp.rx_queue_offloads
    ∧ (txgbevf_dev_info_get inp).fst.tx_offload_capa = inp.tx_port_offloads
    ∧ (txgbevf_dev_info_get inp).fst.tx_queue_offload_capa = inp.tx_queue_offloads := by
  refine ⟨rfl, rfl, rfl, rfl, rfl⟩

/-- The address-manager state visible to add/remove/set-default: the
stored permanent address hw->mac.perm_addr and the local table
dev->data->mac_addrs. -/
structure AddrState where
  perm : EtherAddr
  table : List EtherAddr
  deriving DecidableEq, Repr

/-- txgbevf_set_default_mac_addr: program the permanent-address
hardware slot 0 through hw->mac.set_rar and return 0. Modelled from
the spec: the set_rar primitive (base driver, outside src) programs
the hardware slot only and defines no failure path, so the local
state is returned unchanged alongside the slot-0 action. -/
def txgbevf_set_default_mac_addr (s : AddrState) (addr : EtherAddr) :
    AddrState × Int × List HwAct :=
  (s, 0, [HwAct.mbx (MbxReq.setRar 0 addr)])

/-- Claim C10 — set_default(addr) writes only the hardware
permanent-address slot 0 and returns 0, leaving the stored permanent
address and the local table unchanged; consequently a subsequent add
issues no mailbox request exactly for the original permanent address
(not for the new default), and a subsequent remove replay still never
re-adds the original permanent address. -/
theorem claim_C10_set_default (s : AddrState) (addr : EtherAddr) :
    (txgbevf_set_default_mac_addr s addr).fst = s
    ∧ (txgbevf_set_default_mac_addr s addr).snd.fst = 0
    ∧ (txgbevf_set_default_mac_addr s addr).snd.snd
        = [HwAct.mbx (MbxReq.setRar 0 addr)]
    ∧ (∀ (e : Int) (a : EtherAddr),
        (txgbevf_add_mac_addr (txgbevf_set_default_mac_addr s addr).fst.perm
            e a).snd = [] ↔ a = s.perm)
    ∧ (∀ (mbxRes : Nat → Int) (idx : Nat),
        MbxReq.addUC s.perm ∉
          txgbevf_remove_mac_addr mbxRes
            (txgbevf_set_default_mac_addr s addr).fst.perm
            (txgbevf_set_default_mac_addr s addr).fst.table idx) := by
  refine ⟨rfl, rfl, rfl, ?_, ?_⟩
  · intro e a
    constructor
    · intro h
      by_contra hne
      have h2 : ¬ s.perm = a := fun hpm => hne hpm.symm
      simp [txgbevf_set_default_mac_addr, txgbevf_add_mac_addr, h2] at h
    · intro h
      simp [txgbevf_set_default_mac_addr, txgbevf_add_mac_addr, h.symm]
  · intro mbxRes idx hmem
    have htr : txgbevf_remove_mac_addr mbxRes s.perm s.table idx
        = MbxReq.clearUC :: replaySpec s.perm idx s.table := by
      simp only [txgbevf_remove_mac_addr, replaySpec]
      rw [removeReplay_eq_enumFrom]
      rfl
    simp only [txgbevf_set_default_mac_addr] at hmem
    rw [htr] at hmem
    rcases List.mem_cons.mp hmem with h | h
    · exact MbxReq.noConfusion h
    · exact addUC_perm_not_mem_replaySpec s.perm idx s.table h

/-- Error number constants (errno.h): the I/O-class code EIO. -/
def eio_errno : Int := 5

/-- The retryable code EAGAIN. -/
def eagain_errno : Int := 11

/-- The out-of-memory code ENOMEM. -/
def enomem_errno : Int := 12

/-- Modelled from the spec: the base-driver status code
TXGBE_ERR_INVALID_MAC_ADDR returned by reset_hw when the PF has not
assigned a MAC address to the VF (defined in base-driver headers
outside src; only its nonzero identity matters). -/
def TXGBE_ERR_INVALID_MAC_ADDR : Int := -55

/-- generate_random_mac_addr: OUI bytes 0x00, 0x09, 0xC0 with the
locally-administered bit OR-ed into byte 0, then the three low-order
bytes of the random number (the memcpy of the first three bytes of the
little-endian uint64_t). -/
def generate_random_mac_addr (random : Nat) : EtherAddr :=
  [0x00 ||| RTE_ETHER_LOCAL_ADMIN_ADDR, 0x09, 0xC0,
   random % 256, random / 256 % 256, random / 65536 % 256]

/-- Which transmit data-path variant the secondary attach binds:
the generic default function, or the variant derived from the last
initialized transmit queue (identified by an opaque queue id). -/
inductive TxBind where
  | defaultFn
  | fromQueue (q : Nat)
  deriving DecidableEq, Repr

/-- Inputs of eth_txgbevf_dev_init: the process role, the
already-configured transmit queue state (for the secondary path), and
oracles for every external outcome the primary path consumes: the
shared-code init result, the reset_hw result, the per-candidate
negotiation outcomes, whether the address-table allocation succeeds,
the permanent address left by reset_hw, the rte_rand value, the
txgbe_set_rar_vf result and the start_hw result. -/
structure InitInputs where
  isPrimary : Bool
  nb_tx_queues : Nat
  tx_queues : Option (List Nat)
  init_shared_code_err : Int
  reset_err : Int
  negotiateOk : ApiVer → Bool
  alloc_ok : Bool
  perm0 : EtherAddr
  randomVal : Nat
  set_rar_err : Int
  start_err : Int

/-- The observable outcome of eth_txgbevf_dev_init: the return code,
the transmit binding chosen by the secondary path (none on the primary
path), the externally visible address list eth_dev->data->mac_addrs
(none when unallocated or freed), the final permanent address, the
negotiated API version and the hardware action trace. -/
structure InitOutcome where
  ret : Int
  txBind : Option TxBind
  macAddrs : Option (List EtherAddr)
  perm : EtherAddr
  apiVer : ApiVer
  trace : List HwAct
  deriving DecidableEq, Repr

/-- The all-zero address a freshly rte_zmalloc-ed table slot holds. -/
def zero_ether_addr : EtherAddr := [0, 0, 0, 0, 0, 0]

/-- The tail of the primary init path after the permanent address is
resolved: copy it into slot 0 of the zero-filled 128-entry table, then
start the hardware (failure maps to -EIO) and enable interrupts. -/
def init_tail (inp : InitInputs) (perm : EtherAddr) (ver : ApiVer)
    (tr : List HwAct) : InitOutcome :=
  if inp.start_err ≠ 0 then
    { ret := -eio_errno, txBind := none,
      macAddrs := some ((List.replicate 128 zero_ether_addr).set 0 perm),
      perm := perm, apiVer := ver, trace := tr ++ [HwAct.startHw] }
  else
    { ret := 0, txBind := none,
      macAddrs := some ((List.replicate 128 zero_ether_addr).set 0 perm),
      perm := perm, apiVer := ver,
      trace := tr ++ [HwAct.startHw, HwAct.wr32 Reg.VFIMC TXGBE_VFIMC_MASK,
                      HwAct.flush] }

/-- eth_txgbevf_dev_init. Secondary path: bind the transmit variant
from the last initialized queue when the queue array exists
(tx_queues[nb_tx_queues - 1] with uint16_t wraparound on the index),
otherwise the default variant; touch no hardware; return 0. Primary
path: shared-code init (failure -EIO), disable interrupts, reset_hw
(any failure other than TXGBE_ERR_INVALID_MAC_ADDR returns -EAGAIN),
negotiate the mailbox API, query queues, allocate the address table
(failure -ENOMEM), generate and install a random permanent address if
the PF assigned none (install failure frees the table and returns the
error), copy the permanent address into table slot 0, start the
hardware (failure -EIO) and enable interrupts. -/
def eth_txgbevf_dev_init (inp : InitInputs) : InitOutcome :=
  if inp.isPrimary = false then
    match inp.tx_queues with
    | some qs =>
      { ret := 0,
        txBind := some (TxBind.fromQueue
          (qs.getD ((inp.nb_tx_queues + 65535) % 65536) 0)),
        macAddrs := none, perm := inp.perm0, apiVer := ApiVer.api10, trace := [] }
    | none =>
      { ret := 0, txBind := some TxBind.defaultFn,
        macAddrs := none, perm := inp.perm0, apiVer := ApiVer.api10, trace := [] }
  else if inp.init_shared_code_err ≠ 0 then
    { ret := -eio_errno, txBind := none, macAddrs := none,
      perm := inp.perm0, apiVer := ApiVer.api10, trace := [] }
  else if inp.reset_err ≠ 0 ∧ inp.reset_err ≠ TXGBE_ERR_INVALID_MAC_ADDR then
    { ret := -eagain_errno, txBind := none, macAddrs := none,
      perm := inp.perm0, apiVer := ApiVer.api10,
      trace := [HwAct.wr32 Reg.VFIMS TXGBE_VFIMS_MASK, HwAct.flush,
                HwAct.resetHw] }
  else if inp.alloc_ok = false then
    { ret := -enomem_errno, txBind := none, macAddrs := none,
      perm := inp.perm0,
      apiVer := (txgbevf_negotiate_api inp.negotiateOk ApiVer.api10).fst,
      trace := [HwAct.wr32 Reg.VFIMS TXGBE_VFIMS_MASK, HwAct.flush,
                HwAct.resetHw]
        ++ ((txgbevf_negotiate_api inp.negotiateOk ApiVer.api10).snd.map
              (fun v => HwAct.mbx (MbxReq.negotiate v)))
        ++ [HwAct.mbx MbxReq.getQueues] }
  else if rte_is_zero_ether_addr inp.perm0 then
    if inp.set_rar_err ≠ 0 then
      { ret := inp.set_rar_err, txBind := none, macAddrs := none,
        perm := generate_random_mac_addr inp.randomVal,
        apiVer := (txgbevf_negotiate_api inp.negotiateOk ApiVer.api10).fst,
        trace := [HwAct.wr32 Reg.VFIMS TXGBE_VFIMS_MASK, HwAct.flush,
                  HwAct.resetHw]
          ++ ((txgbevf_negotiate_api inp.negotiateOk ApiVer.api10).snd.map
                (fun v => HwAct.mbx (MbxReq.negotiate v)))
          ++ [HwAct.mbx MbxReq.getQueues,
              HwAct.mbx (MbxReq.setRar 1 (generate_random_mac_addr inp.randomVal))] }
    else
      init_tail inp (generate_random_mac_addr inp.randomVal)
        (txgbevf_negotiate_api inp.negotiateOk ApiVer.api10).fst
        ([HwAct.wr32 Reg.VFIMS TXGBE_VFIMS_MASK, HwAct.flush, HwAct.resetHw]
          ++ ((txgbevf_negotiate_api inp.negotiateOk ApiVer.api10).snd.map
                (fun v => HwAct.mbx (MbxReq.negotiate v)))
          ++ [HwAct.mbx MbxReq.getQueues,
              HwAct.mbx (MbxReq.setRar 1 (generate_random_mac_addr inp.randomVal))])
  else
    init_tail inp inp.perm0
      (txgbevf_negotiate_api inp.negotiateOk ApiVer.api10).fst
      ([HwAct.wr32 Reg.VFIMS TXGBE_VFIMS_MASK, HwAct.flush, HwAct.resetHw]
        ++ ((txgbevf_negotiate_api inp.negotiateOk ApiVer.api10).snd.map
              (fun v => HwAct.mbx (MbxReq.negotiate v)))
        ++ [HwAct.mbx MbxReq.getQueues])

/-- Spec-side classification of the primary init return code, per the
error-handling design: -EIO on shared-code init failure, -EAGAIN on a
reset failure other than the benign no-MAC-assigned condition, -ENOMEM
on table allocation failure, the raw installation error when the
generated random address cannot be installed, -EIO on start failure,
0 otherwise. -/
def init_ret_spec (inp : InitInputs) : Int :=
  if inp.init_shared_code_err ≠ 0 then -eio_errno
  else if inp.reset_err ≠ 0 ∧ inp.reset_err ≠ TXGBE_ERR_INVALID_MAC_ADDR then
    -eagain_errno
  else if inp.alloc_ok = false then -enomem_errno
  else if rte_is_zero_ether_addr inp.perm0 ∧ inp.set_rar_err ≠ 0 then
    inp.set_rar_err
  else if inp.start_err ≠ 0 then -eio_errno
  else 0

/-- Claim C4 — primary init maps failures to error classes exactly as
specified: shared-code init failure to -EIO; reset failure other than
the benign TXGBE_ERR_INVALID_MAC_ADDR condition to -EAGAIN (the benign
code proceeds); address-table allocation failure to -ENOMEM; random
address installation failure to its own error; hardware start failure
to -EIO; success to 0. -/
theorem claim_C4_init_errors (inp : InitInputs) (hp : inp.isPrimary = true) :
    (eth_txgbevf_dev_init inp).ret = init_ret_spec inp := by
  have hnp : ¬ inp.isPrimary = false := by simp [hp]
  simp only [eth_txgbevf_dev_init, init_ret_spec]
  rw [if_neg hnp]
  by_cases h1 : inp.init_shared_code_err ≠ 0
  · rw [if_pos h1, if_pos h1]
  · rw [if_neg h1, if_neg h1]
    by_cases h2 : inp.reset_err ≠ 0 ∧ inp.reset_err ≠ TXGBE_ERR_INVALID_MAC_ADDR
    · rw [if_pos h2, if_pos h2]
    · rw [if_neg h2, if_neg h2]
      by_cases h3 : inp.alloc_ok = false
      · rw [if_pos h3, if_pos h3]
      · rw [if_neg h3, if_neg h3]
        by_cases h4 : rte_is_zero_ether_addr inp.perm0 = true
        · rw [if_pos h4]
          by_cases h5 : inp.set_rar_err ≠ 0
          · rw [if_pos h5, if_pos ⟨h4, h5⟩]
          · rw [if_neg h5, if_neg (fun hc => h5 hc.2), init_tail]
            by_cases h6 : inp.start_err ≠ 0
            · rw [if_pos h6, if_pos h6]
            · rw [if_neg h6, if_neg h6]
        · rw [if_neg h4, if_neg (fun hc => h4 hc.1), init_tail]
          by_cases h6 : inp.start_err ≠ 0
          · rw [if_pos h6, if_pos h6]
          · rw [if_neg h6, if_neg h6]

theorem claim_C4_init_errors_witness :
    (eth_txgbevf_dev_init
      { isPrimary := true, nb_tx_queues := 0, tx_queues := none,
        init_shared_code_err := 0, reset_err := -9,
        negotiateOk := fun _ => false, alloc_ok := true,
        perm0 := [0, 0, 0, 0, 0, 0], randomVal := 0,
        set_rar_err := 0, start_err := 0 }).ret
    = init_ret_spec
      { isPrimary := true, nb_tx_queues := 0, tx_queues := none,
        init_shared_code_err := 0, reset_err := -9,
        negotiateOk := fun _ => false, alloc_ok := true,
        perm0 := [0, 0, 0, 0, 0, 0], randomVal := 0,
        set_rar_err := 0, start_err := 0 } :=
  claim_C4_init_errors _ rfl

theorem generate_random_mac_take3 (r : Nat) :
    (generate_random_mac_addr r).take 3 = [0x02, 0x09, 0xC0] := by
  simp [generate_random_mac_addr, RTE_ETHER_LOCAL_ADMIN_ADDR]

theorem generate_random_mac_nonzero (r : Nat) :
    rte_is_zero_ether_addr (generate_random_mac_addr r) = false := by
  simp [generate_random_mac_addr, rte_is_zero_ether_addr, RTE_ETHER_LOCAL_ADMIN_ADDR]

/-- Claim C5 — when init finds the permanent address all-zero (and the
earlier init steps succeed, with the address installation accepted),
the generated permanent address has bytes 0-2 equal to 0x00, 0x09,
0xC0 with the locally-administered bit OR-ed into byte 0, bytes 3-5
taken from the random number, is non-zero, and is copied into slot 0
of the externally visible address list. -/
theorem claim_C5_random_mac (inp : InitInputs)
    (hp : inp.isPrimary = true)
    (hs : inp.init_shared_code_err = 0)
    (hr : inp.reset_err = 0 ∨ inp.reset_err = TXGBE_ERR_INVALID_MAC_ADDR)
    (ha : inp.alloc_ok = true)
    (hz : rte_is_zero_ether_addr inp.perm0 = true)
    (hrar : inp.set_rar_err = 0) :
    (eth_txgbevf_dev_init inp).perm = generate_random_mac_addr inp.randomVal
    ∧ (eth_txgbevf_dev_init inp).perm.take 3 = [0x02, 0x09, 0xC0]
    ∧ (eth_txgbevf_dev_init inp).perm.drop 3
        = [inp.randomVal % 256, inp.randomVal / 256 % 256,
           inp.randomVal / 65536 % 256]
    ∧ rte_is_zero_ether_addr (eth_txgbevf_dev_init inp).perm = false
    ∧ (eth_txgbevf_dev_init inp).macAddrs.isSome = true
    ∧ ((eth_txgbevf_dev_init inp).macAddrs.getD []).head?
        = some ((eth_txgbevf_dev_init inp).perm) := by
  have hnp : ¬ inp.isPrimary = false := by simp [hp]
  have h1 : ¬ inp.init_shared_code_err ≠ 0 := by simp [hs]
  have h2 : ¬ (inp.reset_err ≠ 0 ∧ inp.reset_err ≠ TXGBE_ERR_INVALID_MAC_ADDR) := by
    rcases hr with h | h <;> simp [h]
  have h3 : ¬ inp.alloc_ok = false := by simp [ha]
  have h5 : ¬ inp.set_rar_err ≠ 0 := by simp [hrar]
  simp only [eth_txgbevf_dev_init]
  rw [if_neg hnp, if_neg h1, if_neg h2, if_neg h3, if_pos hz, if_neg h5, init_tail]
  by_cases h6 : inp.start_err ≠ 0
  · rw [if_pos h6]
    exact ⟨rfl, generate_random_mac_take3 inp.randomVal, rfl,
           generate_random_mac_nonzero inp.randomVal, rfl, rfl⟩
  · rw [if_neg h6]
    exact ⟨rfl, generate_random_mac_take3 inp.randomVal, rfl,
           generate_random_mac_nonzero inp.randomVal, rfl, rfl⟩

/-- A concrete init input exercising the random-address path with the
installation accepted. -/
def w5_inp : InitInputs :=
  { isPrimary := true, nb_tx_queues := 0, tx_queues := none,
    init_shared_code_err := 0, reset_err := TXGBE_ERR_INVALID_MAC_ADDR,
    negotiateOk := fun _ => false, alloc_ok := true,
    perm0 := [0, 0, 0, 0, 0, 0], randomVal := 66051,
    set_rar_err := 0, start_err := 0 }

theorem claim_C5_random_mac_witness :
    (eth_txgbevf_dev_init w5_inp).perm = generate_random_mac_addr w5_inp.randomVal
    ∧ (eth_txgbevf_dev_init w5_inp).perm.take 3 = [0x02, 0x09, 0xC0]
    ∧ (eth_txgbevf_dev_init w5_inp).perm.drop 3
        = [w5_inp.randomVal % 256, w5_inp.randomVal / 256 % 256,
           w5_inp.randomVal / 65536 % 256]
    ∧ rte_is_zero_ether_addr (eth_txgbevf_dev_init w5_inp).perm = false
    ∧ (eth_txgbevf_dev_init w5_inp).macAddrs.isSome = true
    ∧ ((eth_txgbevf_dev_init w5_inp).macAddrs.getD []).head?
        = some ((eth_txgbevf_dev_init w5_inp).perm) :=
  claim_C5_random_mac w5_inp rfl rfl (Or.inr rfl) rfl (by decide) rfl

/-- Claim C6 — if installing the generated random permanent address
fails during init (after a successful allocation), init frees the
just-allocated address table, leaving the table pointer empty, and
returns the installation error to the caller. -/
theorem claim_C6_set_rar_failure (inp : InitInputs)
    (hp : inp.isPrimary = true)
    (hs : inp.init_shared_code_err = 0)
    (hr : inp.reset_err = 0 ∨ inp.reset_err = TXGBE_ERR_INVALID_MAC_ADDR)
    (ha : inp.alloc_ok = true)
    (hz : rte_is_zero_ether_addr inp.perm0 = true)
    (hrar : inp.set_rar_err ≠ 0) :
    (eth_txgbevf_dev_init inp).macAddrs = none
    ∧ (eth_txgbevf_dev_init inp).ret = inp.set_rar_err := by
  have hnp : ¬ inp.isPrimary = false := by simp [hp]
  have h1 : ¬ inp.init_shared_code_err ≠ 0 := by simp [hs]
  have h2 : ¬ (inp.reset_err ≠ 0 ∧ inp.reset_err ≠ TXGBE_ERR_INVALID_MAC_ADDR) := by
    rcases hr with h | h <;> simp [h]
  have h3 : ¬ inp.alloc_ok = false := by simp [ha]
  simp only [eth_txgbevf_dev_init]
  rw [if_neg hnp, if_neg h1, if_neg h2, if_neg h3, if_pos hz, if_pos hrar]
  exact ⟨rfl, rfl⟩

/-- A concrete init input exercising the failed installation of the
generated random address. -/
def w6_inp : InitInputs :=
  { isPrimary := true, nb_tx_queues := 0, tx_queues := none,
    init_shared_code_err := 0, reset_err := TXGBE_ERR_INVALID_MAC_ADDR,
    negotiateOk := fun _ => true, alloc_ok := true,
    perm0 := [0, 0, 0, 0, 0, 0], randomVal := 5,
    set_rar_err := -7, start_err := 0 }

theorem claim_C6_set_rar_failure_witness :
    (eth_txgbevf_dev_init w6_inp).macAddrs = none
    ∧ (eth_txgbevf_dev_init w6_inp).ret = w6_inp.set_rar_err :=
  claim_C6_set_rar_failure w6_inp rfl rfl (Or.inr rfl) rfl (by decide) (by decide)

/-- Claim C7 — a secondary-process attach under the framework
invariant that the queue array exists exactly when the configured
transmit-queue count is nonzero: with zero configured transmit queues
init returns 0, binds the default transmit data-path variant, and
issues no hardware action (in particular the queue-array indexing of
the non-default branch is never reached). -/
theorem claim_C7_secondary_attach (inp : InitInputs)
    (hp : inp.isPrimary = false)
    (hinv : inp.tx_queues = none ↔ inp.nb_tx_queues = 0)
    (h0 : inp.nb_tx_queues = 0) :
    (eth_txgbevf_dev_init inp).ret = 0
    ∧ (eth_txgbevf_dev_init inp).txBind = some TxBind.defaultFn
    ∧ (eth_txgbevf_dev_init inp).trace = [] := by
  have hq : inp.tx_queues = none := hinv.mpr h0
  simp only [eth_txgbevf_dev_init]
  rw [if_pos hp, hq]
  exact ⟨rfl, rfl, rfl⟩

/-- A concrete secondary-attach input with zero configured transmit
queues. -/
def w7_inp : InitInputs :=
  { isPrimary := false, nb_tx_queues := 0, tx_queues := none,
    init_shared_code_err := 0, reset_err := 0,
    negotiateOk := fun _ => false, alloc_ok := true,
    perm0 := [0, 0, 0, 0, 0, 0], randomVal := 0,
    set_rar_err := 0, start_err := 0 }

theorem claim_C7_secondary_attach_witness :
    (eth_txgbevf_dev_init w7_inp).ret = 0
    ∧ (eth_txgbevf_dev_init w7_inp).txBind = some TxBind.defaultFn
    ∧ (eth_txgbevf_dev_init w7_inp).trace = [] :=
  claim_C7_secondary_attach w7_inp rfl (by decide) rfl
